import Mathlib

/-!
Shallow embedding of `actix-json-error-middleware` (`src/src/lib.rs`).

The repository implements an actix-web middleware.  The parts the
verification needs are:

* `JsonErrorMessage` — the serializable error envelope (`error : u16`,
  `message : String`).
* `JsonErrorMiddlewareDefinition::call` — awaits the wrapped service's
  outcome, extracts the response via `res_result.ok().expect("response
  found")` (which panics on `Err`), then branches on `status > 299`:
  the error branch builds a fresh response with
  `HttpResponseBuilder::new(status).json(envelope)` and substitutes it via
  `ServiceResponse::into_response`, the pass-through branch does
  `headers_mut().insert(CONTENT_TYPE, "application/json")`.
* `JsonMiddleware::new_transform` — `ready(Ok(JsonErrorMiddlewareDefinition
  { service }))`.

Modelling choices: HTTP status codes are `Nat` (the `u16` of
`StatusCode::as_u16`), header maps are association lists of
(lowercase name, value) pairs — actix `HeaderName`s are normalized to
lowercase, and `HeaderMap::insert` drops every previous value of the key —
bodies are type parameters, the serialized JSON body is a `String`, a
panic is `Option.none`, and the one `await` point is made explicit by
taking the awaited outcome `Except E (ServiceResponse B)` as input.
-/

namespace ActixJsonError

/-- Association-list model of the actix `HeaderMap`: every value stored
under a (lowercase) header name, in insertion order. -/
def headerGetAll (name : String) (hs : List (String × String)) : List String :=
  (hs.filter (fun p => p.1 = name)).map (fun p => p.2)

/-- `HeaderMap::insert`: removes every previous value of the key and
stores the single new value. -/
def headerInsert (name value : String) (hs : List (String × String)) :
    List (String × String) :=
  (name, value) :: hs.filter (fun p => p.1 ≠ name)

/-- `JsonErrorMessage` from `src/src/lib.rs`: the serializable struct for
an error response body.  `error` carries the `u16` status code. -/
structure JsonErrorMessage where
  error : Nat
  message : String
deriving DecidableEq, Repr

/-- The three facets of an actix `ServiceResponse` the middleware reads or
writes: status code, header map, body. -/
structure ServiceResponse (B : Type) where
  status : Nat
  headers : List (String × String)
  body : B
deriving DecidableEq, Repr

/-- `actix_web::body::EitherBody`: `left` is the untouched upstream body,
`right` the boxed serialized-JSON body. -/
inductive EitherBody (B : Type) where
  | left : B → EitherBody B
  | right : String → EitherBody B
deriving DecidableEq, Repr

/-- `StatusCode::canonical_reason` (http crate): the canonical reason
phrase of a status code, when one is registered. -/
def canonicalReason (code : Nat) : Option String :=
  match code with
  | 100 => some "Continue"
  | 101 => some "Switching Protocols"
  | 102 => some "Processing"
  | 200 => some "OK"
  | 201 => some "Created"
  | 202 => some "Accepted"
  | 203 => some "Non-Authoritative Information"
  | 204 => some "No Content"
  | 205 => some "Reset Content"
  | 206 => some "Partial Content"
  | 207 => some "Multi-Status"
  | 208 => some "Already Reported"
  | 226 => some "IM Used"
  | 300 => some "Multiple Choices"
  | 301 => some "Moved Permanently"
  | 302 => some "Found"
  | 303 => some "See Other"
  | 304 => some "Not Modified"
  | 305 => some "Use Proxy"
  | 307 => some "Temporary Redirect"
  | 308 => some "Permanent Redirect"
  | 400 => some "Bad Request"
  | 401 => some "Unauthorized"
  | 402 => some "Payment Required"
  | 403 => some "Forbidden"
  | 404 => some "Not Found"
  | 405 => some "Method Not Allowed"
  | 406 => some "Not Acceptable"
  | 407 => some "Proxy Authentication Required"
  | 408 => some "Request Timeout"
  | 409 => some "Conflict"
  | 410 => some "Gone"
  | 411 => some "Length Required"
  | 412 => some "Precondition Failed"
  | 413 => some "Payload Too Large"
  | 414 => some "URI Too Long"
  | 415 => some "Unsupported Media Type"
  | 416 => some "Range Not Satisfiable"
  | 417 => some "Expectation Failed"
  | 418 => some "I\x27m a teapot"
  | 421 => some "Misdirected Request"
  | 422 => some "Unprocessable Entity"
  | 423 => some "Locked"
  | 424 => some "Failed Dependency"
  | 426 => some "Upgrade Required"
  | 428 => some "Precondition Required"
  | 429 => some "Too Many Requests"
  | 431 => some "Request Header Fields Too Large"
  | 451 => some "Unavailable For Legal Reasons"
  | 500 => some "Internal Server Error"
  | 501 => some "Not Implemented"
  | 502 => some "Bad Gateway"
  | 503 => some "Service Unavailable"
  | 504 => some "Gateway Timeout"
  | 505 => some "HTTP Version Not Supported"
  | 506 => some "Variant Also Negotiates"
  | 507 => some "Insufficient Storage"
  | 508 => some "Loop Detected"
  | 510 => some "Not Extended"
  | 511 => some "Network Authentication Required"
  | _ => none

/-- `StatusCode`'s `Display` impl (so `status_code.to_string()`): the
numeric code, a space, then the canonical reason phrase or the literal
fallback for unregistered codes. -/
def statusCodeToString (code : Nat) : String :=
  Nat.repr code ++ " " ++ ((canonicalReason code).getD "<unknown status code>")

/-- serde_json's escaping of one character inside a JSON string literal
(quote, backslash, and the short control escapes; other control characters
become a `\u00XX` sequence — they never occur in a reason phrase). -/
def escapeJsonChar (c : Char) : List Char :=
  if c = '"' then ['\\', '"']
  else if c = '\\' then ['\\', '\\']
  else if c = '\n' then ['\\', 'n']
  else if c = '\r' then ['\\', 'r']
  else if c = '\t' then ['\\', 't']
  else [c]

/-- serde_json serialization of a `JsonErrorMessage`, fields in
declaration order: `\x7b"error":<code>,"message":"<text>"\x7d`. -/
def serializeJsonErrorMessage (v : JsonErrorMessage) : String :=
  "\x7b\"error\":" ++ Nat.repr v.error ++ ",\"message\":\""
    ++ String.mk (v.message.toList.flatMap escapeJsonChar) ++ "\"\x7d"

/-- `HttpResponseBuilder::new(status).json(value)`: a fresh response with
the given status, a single `content-type: application/json` header
inserted by `.json`, and the serialized value as body. -/
def httpResponseBuilderJson (status : Nat) (value : JsonErrorMessage) :
    ServiceResponse String :=
  { status := status
    headers := [("content-type", "application/json")]
    body := serializeJsonErrorMessage value }

/-- `map_into_right_body`: box the serialized body as the right variant. -/
def mapIntoRightBody {B : Type} (r : ServiceResponse String) :
    ServiceResponse (EitherBody B) :=
  { status := r.status, headers := r.headers, body := .right r.body }

/-- `map_into_left_body`: keep the upstream body as the left variant. -/
def mapIntoLeftBody {B : Type} (r : ServiceResponse B) :
    ServiceResponse (EitherBody B) :=
  { status := r.status, headers := r.headers, body := .left r.body }

/-- `ServiceResponse::into_response(res, response)`: keeps only the
request of `res` (not modelled) and takes every response facet — status,
headers, body — from `response`. -/
def intoResponse {B C : Type} (_res : ServiceResponse B)
    (response : ServiceResponse C) : ServiceResponse C :=
  response

/-- The decoration applied by `JsonErrorMiddlewareDefinition::call` once
the awaited outcome produced a response `res` (lines 49–63 of
`src/src/lib.rs`). -/
def decorateResponse {B : Type} (res : ServiceResponse B) :
    ServiceResponse (EitherBody B) :=
  let status_code := res.status
  if status_code > 299 then
    let response := mapIntoRightBody (B := B)
      (httpResponseBuilderJson status_code
        { error := status_code, message := statusCodeToString status_code })
    intoResponse res response
  else
    let res2 : ServiceResponse B :=
      { res with
        headers := headerInsert "content-type" "application/json" res.headers }
    mapIntoLeftBody res2

/-- `JsonErrorMiddlewareDefinition::call` after the single `await`: the
awaited outcome is `res_result`; `res_result.ok().expect("response
found")` panics (modelled as `none`) when the outcome is an `Err`, and
otherwise the decorated response is returned as `Ok`. -/
def jsonErrorMiddlewareCall {E B : Type}
    (out : Except E (ServiceResponse B)) :
    Option (Except E (ServiceResponse (EitherBody B))) :=
  match out with
  | .error _ => none
  | .ok res => some (.ok (decorateResponse res))

/-- `JsonErrorMiddlewareDefinition` holds exactly the wrapped service. -/
structure JsonErrorMiddlewareDefinition (S : Type) where
  service : S
deriving DecidableEq, Repr

/-- `JsonMiddleware::new_transform`: `ready(Ok(JsonErrorMiddlewareDefinition
{ service }))` — an immediately-ready `Result` with `InitError = ()`. -/
def new_transform {S : Type} (service : S) :
    Except Unit (JsonErrorMiddlewareDefinition S) :=
  .ok { service := service }

/-! A small JSON reader, enough to deserialize the envelope shape that
serde emits for `JsonErrorMessage` (an object with an integer `error`
field followed by a string `message` field).  It is the measuring
instrument for the claims that speak about what the body "deserializes
as"; it is independent of the serializer above. -/

/-- Consume an expected literal prefix, returning the rest. -/
def stripLit : List Char → List Char → Option (List Char)
  | [], s => some s
  | l :: ls, c :: cs => if l = c then stripLit ls cs else none
  | _ :: _, [] => none

/-- Consume a non-empty run of decimal digits, returning its value. -/
def readNat (s : List Char) : Option (Nat × List Char) :=
  let ds := s.takeWhile Char.isDigit
  if ds.isEmpty then none
  else some (ds.foldl (fun a c => a * 10 + (c.toNat - 48)) 0,
             s.dropWhile Char.isDigit)

/-- Consume the remainder of a JSON string literal (after the opening
quote), un-escaping as it goes; returns the text and what follows the
closing quote. -/
def readJsonString : List Char → Option (List Char × List Char)
  | [] => none
  | '"' :: rest => some ([], rest)
  | '\\' :: e :: rest => do
      let u ← match e with
        | '"' => some '"'
        | '\\' => some '\\'
        | 'n' => some '\n'
        | 'r' => some '\r'
        | 't' => some '\t'
        | _ => none
      let (s, r) ← readJsonString rest
      some (u :: s, r)
  | c :: rest => do
      let (s, r) ← readJsonString rest
      some (c :: s, r)

/-- Deserialize a body as the error-envelope object
`\x7b"error":<int>,"message":"<text>"\x7d`. -/
def deserializeJsonErrorMessage (body : String) : Option JsonErrorMessage := do
  let s0 ← stripLit "\x7b\"error\":".toList body.toList
  let (code, s1) ← readNat s0
  let s2 ← stripLit ",\"message\":\"".toList s1
  let (msg, s3) ← readJsonString s2
  let s4 ← stripLit "\x7d".toList s3
  if s4.isEmpty then some { error := code, message := String.mk msg } else none

/-! Concrete upstream responses used to instantiate the theorems. -/

/-- A 299 pass-through boundary response with a prior content-type. -/
def resp299 : ServiceResponse String :=
  { status := 299, headers := [("content-type", "text/plain")], body := "orig" }

/-- A 300 synthesized-branch boundary response. -/
def resp300 : ServiceResponse String :=
  { status := 300, headers := [], body := "orig" }

/-- A 404 response on which the next stage set a custom header. -/
def resp404x : ServiceResponse String :=
  { status := 404, headers := [("x-custom", "a")], body := "upstream" }

/-- A 200 response with a conflicting prior content-type and a custom
header. -/
def resp200 : ServiceResponse String :=
  { status := 200, headers := [("content-type", "text/html"), ("x-custom", "a")], body := "ok" }

/-- A headerless, body-less upstream response with a given status. -/
def respWithStatus (code : Nat) : ServiceResponse String :=
  { status := code, headers := [], body := "" }

set_option maxRecDepth 100000

/-! Helper lemmas about the header-map model. -/

/-- Filtering for a key after filtering it away yields nothing. -/
theorem filter_ne_then_eq (n : String) (hs : List (String × String)) :
    (hs.filter (fun p => p.1 ≠ n)).filter (fun p => p.1 = n) = [] := by
  induction hs with
  | nil => rfl
  | cons p t ih =>
      by_cases h : p.1 = n
      · simp [List.filter_cons, h, ih]
      · simp [List.filter_cons, h, ih]

/-- On keys other than the removed one, the conjoined filter predicate
left by inserting is just the key test. -/
theorem filter_eq_and_ne (n m : String) (hm : m ≠ n)
    (hs : List (String × String)) :
    hs.filter (fun a => decide (a.1 = m) && !decide (a.1 = n))
      = hs.filter (fun a => decide (a.1 = m)) := by
  induction hs with
  | nil => rfl
  | cons p t ih =>
      by_cases h : p.1 = m
      · have hpn : ¬ p.1 = n := fun hc => hm (by rw [← h, hc])
        simp [List.filter_cons, h, hpn, ih, hm]
      · simp [List.filter_cons, h, ih]

/-- After `HeaderMap::insert`, the inserted key has exactly the one new
value. -/
theorem headerGetAll_headerInsert_self (n v : String)
    (hs : List (String × String)) :
    headerGetAll n (headerInsert n v hs) = [v] := by
  simp [headerGetAll, headerInsert, List.filter_cons, filter_ne_then_eq n hs]

/-- `HeaderMap::insert` leaves every other key's values untouched. -/
theorem headerGetAll_headerInsert_other (n m v : String) (hm : m ≠ n)
    (hs : List (String × String)) :
    headerGetAll m (headerInsert n v hs) = headerGetAll m hs := by
  have hnm : ¬ n = m := fun hc => hm hc.symm
  simp only [headerGetAll, headerInsert, List.filter_cons, List.filter_filter]
  simp [hnm, filter_eq_and_ne n m hm hs]

/-- The decorated response on the error branch, spelled out. -/
theorem decorateResponse_of_gt {B : Type} (res : ServiceResponse B)
    (h : res.status > 299) :
    decorateResponse res =
      mapIntoRightBody (httpResponseBuilderJson res.status
        { error := res.status, message := statusCodeToString res.status }) := by
  simp [decorateResponse, h, intoResponse]

/-- The decorated response on the pass-through branch, spelled out. -/
theorem decorateResponse_of_le {B : Type} (res : ServiceResponse B)
    (h : ¬ res.status > 299) :
    decorateResponse res =
      { res with
        headers := headerInsert "content-type" "application/json" res.headers
        body := EitherBody.left res.body } := by
  simp [decorateResponse, h, mapIntoLeftBody]

/-- The serialized envelope of each status in [300, 599] deserializes back
to itself, and its rendered message is non-empty. -/
theorem envelope_roundtrip : ∀ s : Fin 300,
    deserializeJsonErrorMessage (serializeJsonErrorMessage
      { error := 300 + s.1, message := statusCodeToString (300 + s.1) })
      = some { error := 300 + s.1, message := statusCodeToString (300 + s.1) }
    ∧ statusCodeToString (300 + s.1) ≠ "" := by
  decide

/-- Claim C1, counterexample: at the concrete failed outcome
`Err("boom")`, `call` does not return that failure to its caller —
`res_result.ok()` discards the error and `.expect("response found")`
panics (modelled as `none`), so the outcome is neither the same failure
nor any response. -/
theorem C1_counterexample :
    jsonErrorMiddlewareCall (E := String) (B := String)
        (Except.error "boom") = none
    ∧ jsonErrorMiddlewareCall (E := String) (B := String)
        (Except.error "boom") ≠ some (Except.error "boom") := by
  refine ⟨rfl, ?_⟩
  intro hc
  simp [jsonErrorMiddlewareCall] at hc

/-- Claim C1, as amended: when the next stage's outcome is a failure, the
Decorator neither recovers it nor synthesizes an envelope response, but it
also does not propagate the failure: `.ok().expect("response found")`
panics, so no outcome at all is returned to the caller. -/
theorem C1_amended (E B : Type) (e : E) :
    jsonErrorMiddlewareCall (E := E) (B := B) (Except.error e) = none := rfl

/-- Claim C2, counterexample: the next stage set `x-custom: a` on a 404
response, yet after decoration the header is gone — the synthesized
response is built by a fresh `HttpResponseBuilder` and substituted whole
by `into_response`, so upstream headers are not retained. -/
theorem C2_counterexample :
    resp404x.status > 299
    ∧ headerGetAll "x-custom" resp404x.headers = ["a"]
    ∧ headerGetAll "x-custom" (decorateResponse resp404x).headers = [] := by
  refine ⟨by decide, rfl, ?_⟩
  rw [decorateResponse_of_gt resp404x (by decide)]
  rfl

/-- Claim C2, as amended: for a response with status greater than 299 the
decorated response retains the original status code, but none of the
headers the next stage set: its header map is exactly the fresh builder's
single `content-type: application/json` entry. -/
theorem C2_amended (B : Type) (res : ServiceResponse B)
    (h : res.status > 299) :
    (decorateResponse res).status = res.status
    ∧ (decorateResponse res).headers = [("content-type", "application/json")] := by
  rw [decorateResponse_of_gt res h]
  exact ⟨rfl, rfl⟩

/-- Witness for the amended claim C2 at the concrete 404 response. -/
theorem C2_amended_witness :
    resp404x.status > 299
    ∧ ((decorateResponse resp404x).status = resp404x.status
      ∧ (decorateResponse resp404x).headers
          = [("content-type", "application/json")]) :=
  ⟨by decide, C2_amended String resp404x (by decide)⟩

/-- Claim C3: the branching test is exactly `status > 299` — the body is
replaced by a synthesized envelope iff the status exceeds 299; a 299
response keeps its body, and a 300 response's body is an envelope with
`error = 300`. -/
theorem C3_threshold :
    (∀ (B : Type) (res : ServiceResponse B),
      (∃ s, (decorateResponse res).body = EitherBody.right s)
        ↔ res.status > 299)
    ∧ (decorateResponse resp299).body = EitherBody.left resp299.body
    ∧ (∃ s, (decorateResponse resp300).body = EitherBody.right s
        ∧ (deserializeJsonErrorMessage s).map (fun e => e.error) = some 300) := by
  refine ⟨?_, ?_, ?_⟩
  · intro B res
    constructor
    · rintro ⟨s, hs⟩
      by_cases h : res.status > 299
      · exact h
      · rw [decorateResponse_of_le res h] at hs
        simp at hs
    · intro h
      rw [decorateResponse_of_gt res h]
      exact ⟨_, rfl⟩
  · rw [decorateResponse_of_le resp299 (by decide)]
  · refine ⟨serializeJsonErrorMessage
        { error := 300, message := statusCodeToString 300 }, ?_, ?_⟩
    · rw [decorateResponse_of_gt resp300 (by decide)]
      rfl
    · decide

/-- Claim C4: for every status in [300, 599], the decorated body
deserializes as a JSON object whose integer `error` field equals the
status and whose string `message` field is non-empty. -/
theorem C4_envelope (B : Type) (res : ServiceResponse B)
    (h1 : 300 ≤ res.status) (h2 : res.status ≤ 599) :
    ∃ body env, (decorateResponse res).body = EitherBody.right body
      ∧ deserializeJsonErrorMessage body = some env
      ∧ env.error = res.status ∧ env.message ≠ "" := by
  have hgt : res.status > 299 := h1
  obtain ⟨hrt, hne⟩ := envelope_roundtrip ⟨res.status - 300, by omega⟩
  have heq : 300 + (res.status - 300) = res.status := by omega
  rw [heq] at hrt hne
  rw [decorateResponse_of_gt res hgt]
  exact ⟨_, _, rfl, hrt, rfl, hne⟩

/-- Witness for claim C4 at the concrete 404 response. -/
theorem C4_envelope_witness :
    300 ≤ resp404x.status ∧ resp404x.status ≤ 599
    ∧ ∃ body env, (decorateResponse resp404x).body = EitherBody.right body
      ∧ deserializeJsonErrorMessage body = some env
      ∧ env.error = resp404x.status ∧ env.message ≠ "" :=
  ⟨by decide, by decide, C4_envelope String resp404x (by decide) (by decide)⟩

/-- Claim C5: decoration never changes the status code, on either
branch. -/
theorem C5_status_preserved (B : Type) (res : ServiceResponse B) :
    (decorateResponse res).status = res.status := by
  by_cases h : res.status > 299
  · rw [decorateResponse_of_gt res h]
    rfl
  · rw [decorateResponse_of_le res h]

/-- Claim C6: for statuses at most 299, decoration keeps the body
byte-for-byte and the status, leaves every header other than content-type
unchanged, and forces content-type to exactly `application/json`
whatever its prior value. -/
theorem C6_passthrough (B : Type) (res : ServiceResponse B)
    (h : res.status ≤ 299) :
    (decorateResponse res).body = EitherBody.left res.body
    ∧ (decorateResponse res).status = res.status
    ∧ (∀ n, n ≠ "content-type" →
        headerGetAll n (decorateResponse res).headers
          = headerGetAll n res.headers)
    ∧ headerGetAll "content-type" (decorateResponse res).headers
        = ["application/json"] := by
  have hngt : ¬ res.status > 299 := by omega
  rw [decorateResponse_of_le res hngt]
  refine ⟨rfl, rfl, ?_, ?_⟩
  · intro n hn
    exact headerGetAll_headerInsert_other "content-type" n "application/json"
      hn res.headers
  · exact headerGetAll_headerInsert_self "content-type" "application/json"
      res.headers

/-- Witness for claim C6 at a concrete 200 response that had both a
conflicting content-type and a custom header. -/
theorem C6_passthrough_witness :
    resp200.status ≤ 299
    ∧ (decorateResponse resp200).body = EitherBody.left resp200.body
    ∧ headerGetAll "x-custom" (decorateResponse resp200).headers
        = headerGetAll "x-custom" resp200.headers
    ∧ headerGetAll "content-type" (decorateResponse resp200).headers
        = ["application/json"] :=
  ⟨by decide, (C6_passthrough String resp200 (by decide)).1,
   (C6_passthrough String resp200 (by decide)).2.2.1 "x-custom" (by decide),
   (C6_passthrough String resp200 (by decide)).2.2.2⟩

/-- Claim C7: after decoration the content-type header holds exactly the
one value `application/json`, whatever the next stage had set — the
pass-through branch inserts (replacing all previous values) and the error
branch starts from a fresh header map. -/
theorem C7_single_content_type (B : Type) (res : ServiceResponse B) :
    headerGetAll "content-type" (decorateResponse res).headers
      = ["application/json"] := by
  by_cases h : res.status > 299
  · rw [decorateResponse_of_gt res h]
    rfl
  · rw [decorateResponse_of_le res h]
    exact headerGetAll_headerInsert_self "content-type" "application/json"
      res.headers

/-- Claim C8: `new_transform` is total — it always yields `Ok`, never the
`InitError`, and the produced Decorator holds exactly the given service
reference. -/
theorem C8_new_transform_total (S : Type) (service : S) :
    (∃ d, new_transform service = Except.ok d ∧ d.service = service)
    ∧ ∀ e : Unit, new_transform service ≠ Except.error e := by
  refine ⟨⟨_, rfl, rfl⟩, ?_⟩
  intro e hc
  simp [new_transform] at hc

/-- Claim C9: when the next stage's outcome is `Ok(res)`, `call` always
completes with `Ok` of the decorated response — the
`.expect("response found")` panic branch is unreachable and the Decorator
raises no error of its own. -/
theorem C9_ok_total (E B : Type) (res : ServiceResponse B) :
    jsonErrorMiddlewareCall (E := E) (B := B) (Except.ok res)
      = some (Except.ok (decorateResponse res)) := rfl

/-- Claim C10: the synthesized envelope's message is the status code's
`to_string()` rendering — the numeric code followed by the canonical
reason phrase — so at 404 it is "404 Not Found", neither the literal
"error" nor the bare reason phrase. -/
theorem C10_message_rendering (B : Type) (res : ServiceResponse B)
    (h1 : 300 ≤ res.status) (h2 : res.status ≤ 599) :
    (∃ body env, (decorateResponse res).body = EitherBody.right body
      ∧ deserializeJsonErrorMessage body = some env
      ∧ env.message = statusCodeToString res.status)
    ∧ statusCodeToString 404 = "404 Not Found"
    ∧ statusCodeToString 404 ≠ "error"
    ∧ statusCodeToString 404 ≠ "Not Found" := by
  have hgt : res.status > 299 := h1
  obtain ⟨hrt, _⟩ := envelope_roundtrip ⟨res.status - 300, by omega⟩
  have heq : 300 + (res.status - 300) = res.status := by omega
  rw [heq] at hrt
  refine ⟨?_, by decide, by decide, by decide⟩
  rw [decorateResponse_of_gt res hgt]
  exact ⟨_, _, rfl, hrt, rfl⟩

/-- Witness for claim C10 at the concrete 404 response. -/
theorem C10_message_rendering_witness :
    300 ≤ resp404x.status ∧ resp404x.status ≤ 599
    ∧ ((∃ body env, (decorateResponse resp404x).body = EitherBody.right body
      ∧ deserializeJsonErrorMessage body = some env
      ∧ env.message = statusCodeToString resp404x.status)
    ∧ statusCodeToString 404 = "404 Not Found"
    ∧ statusCodeToString 404 ≠ "error"
    ∧ statusCodeToString 404 ≠ "Not Found") :=
  ⟨by decide, by decide,
   C10_message_rendering String resp404x (by decide) (by decide)⟩

end ActixJsonError
